import Mathlib

/-!
Verification of the `sss_shared_lib` FFI binding contract and its C example driver.

The repository ships a C header (`src/include/sss_shared.h`) declaring
`create_token`, `mint_token_ffi` and `free_string`, plus an example driver
(`src/examples/c_example.c`) that calls create-then-mint and reports results.
The implementations of the two FFI entry points live in the repository's shared
library, which is not under `src/`; those operations are therefore modelled from
the specification, while the driver is embedded directly from `c_example.c`.

C strings are modelled as lists of bytes (`List Nat`), the null terminator as
the byte `0`, and caller-supplied buffers as byte lists carrying both the
writable region (the first `cap` bytes) and whatever memory lies beyond it.
-/

namespace SssShared

/-- The bytes of an ASCII string literal, used to embed the C string constants
of the example driver. -/
def strBytes (s : String) : List Nat := s.data.map Char.toNat

/-- Reading a null-terminated C string out of a byte buffer: the bytes up to
(excluding) the first `0`. -/
def readCString : List Nat → List Nat
  | [] => []
  | b :: bs => if b = 0 then [] else b :: readCString bs

/-- Modelled from the spec: writing a null-terminated string of payload `s`
into a caller buffer of declared capacity `cap` whose memory is `mem`.
Succeeds only when the payload plus its terminator fit in the capacity
("including room for the terminator", §4.1); memory beyond the written
region (in particular beyond `cap`) is untouched. -/
def writeCString (s : List Nat) (cap : Nat) (mem : List Nat) : Option (List Nat) :=
  if s.length + 1 ≤ cap then
    some (s ++ 0 :: mem.drop (s.length + 1))
  else
    none

/-- The result the external token-issuance engine hands back for a successful
creation: a transaction signature and a mint address, both text. -/
structure TokenResult where
  signature : List Nat
  mintAddress : List Nat
deriving DecidableEq

/-- The opaque external creation engine (spec §6: blockchain signing/submission
engine): from URI, name and decimals it either produces a `TokenResult` or
fails. -/
def CreateEngine : Type := List Nat → List Nat → Nat → Option TokenResult

/-- The opaque external minting engine: from mint address, resolved owner and
amount it either produces a transaction signature or fails. -/
def MintEngine : Type := List Nat → List Nat → Nat → Option (List Nat)

/-- Modelled from the spec: the implementation of `create_token` is not under
`src/` (the header only declares it). Following §4.1: on engine success the
signature and mint address are written null-terminated into the caller buffers
when they fit their declared capacities, and status `0` is returned; on engine
failure or an undersized buffer a nonzero status is returned and the output
buffers are left untouched. -/
def create_token (engine : CreateEngine) (uri_ptr name_ptr : List Nat)
    (decimals : Nat) (signature_out mint_address_out : List Nat)
    (signature_len mint_address_len : Nat) : Int × List Nat × List Nat :=
  match engine uri_ptr name_ptr decimals with
  | none => (1, signature_out, mint_address_out)
  | some r =>
    match writeCString r.signature signature_len signature_out,
          writeCString r.mintAddress mint_address_len mint_address_out with
    | some sm, some am => (0, sm, am)
    | _, _ => (1, signature_out, mint_address_out)

/-- Modelled from the spec: the implementation of `mint_token_ffi` is not under
`src/` (the header only declares it). Following §4.2: an absent (`none`) owner
means "use the default payer account"; on engine success the signature is
written null-terminated into the caller buffer when it fits, status `0`;
otherwise a nonzero status and the buffer is left untouched. -/
def mint_token_ffi (engine : MintEngine) (payer : List Nat)
    (mint_address : List Nat) (token_owner : Option (List Nat)) (amount : Nat)
    (signature_out : List Nat) (signature_len : Nat) : Int × List Nat :=
  let owner := token_owner.getD payer
  match engine mint_address owner amount with
  | none => (1, signature_out)
  | some sig =>
    match writeCString sig signature_len signature_out with
    | some sm => (0, sm)
    | none => (1, signature_out)

/-- A buffer holds a null terminator within the first `cap` bytes. -/
def nullWithin (l : List Nat) (cap : Nat) : Prop :=
  ∃ i, i < cap ∧ l[i]? = some 0

lemma writeCString_fits {s : List Nat} {cap : Nat} {mem res : List Nat}
    (h : writeCString s cap mem = some res) : s.length + 1 ≤ cap := by
  by_cases hle : s.length + 1 ≤ cap
  · exact hle
  · simp [writeCString, hle] at h

lemma writeCString_eq {s : List Nat} {cap : Nat} {mem res : List Nat}
    (h : writeCString s cap mem = some res) :
    res = s ++ 0 :: mem.drop (s.length + 1) := by
  by_cases hle : s.length + 1 ≤ cap
  · simp [writeCString, hle] at h
    exact h.symm
  · simp [writeCString, hle] at h

lemma writeCString_nullWithin {s : List Nat} {cap : Nat} {mem res : List Nat}
    (h : writeCString s cap mem = some res) : nullWithin res cap := by
  refine ⟨s.length, by have := writeCString_fits h; omega, ?_⟩
  rw [writeCString_eq h]
  rw [List.getElem?_append_right (Nat.le_refl _)]
  simp

lemma writeCString_drop {s : List Nat} {cap : Nat} {mem res : List Nat}
    (h : writeCString s cap mem = some res) : res.drop cap = mem.drop cap := by
  have hle := writeCString_fits h
  rw [writeCString_eq h]
  have hlen : (s ++ [(0 : Nat)]).length = s.length + 1 := by simp
  have : s ++ 0 :: mem.drop (s.length + 1) = (s ++ [0]) ++ mem.drop (s.length + 1) := by
    simp
  rw [this, List.drop_append_eq_append_drop, List.drop_eq_nil_of_le (by omega), hlen,
    List.drop_drop]
  have harith : s.length + 1 + (cap - (s.length + 1)) = cap := by omega
  rw [harith]
  simp

/-! ## The example driver (`src/examples/c_example.c`) -/

/-- `const char* uri` of the example driver (c_example.c line 6). -/
def c_uri : List Nat := strBytes "https://example.com/token-metadata.json"

/-- `const char* name` of the example driver (c_example.c line 7). -/
def c_name : List Nat := strBytes "Test Token from C"

/-- `sizeof(signature)` for the driver's `char signature[100]`. -/
def signature_size : Nat := 100

/-- `sizeof(mint_address)` for the driver's `char mint_address[50]`. -/
def mint_address_size : Nat := 50

/-- `sizeof(mint_signature)` for the driver's `char mint_signature[100]`. -/
def mint_signature_size : Nat := 100

/-- One line printed by the example driver, one constructor per `printf` in
`c_example.c`, carrying the formatted arguments. -/
inductive Output where
  | creatingToken (name : List Nat)
  | errorCreating (status : Int)
  | tokenCreated
  | txSignature (sig : List Nat)
  | mintAddressLine (addr : List Nat)
  | viewExplorer (addr : List Nat)
  | mintingTokens
  | minted
  | mintTxSignature (sig : List Nat)
  | viewMintTx (sig : List Nat)
  | errorMinting (status : Int)
deriving DecidableEq

/-- A String rendering of a byte list (for the `%s` conversions). -/
def bytesStr (l : List Nat) : String := String.mk (l.map Char.ofNat)

/-- The text each `printf` of the example driver produces. -/
def renderOutput : Output → String
  | .creatingToken n => "Creating token: " ++ bytesStr n ++ "\n"
  | .errorCreating s => "❌ Error creating token: " ++ toString s ++ "\n"
  | .tokenCreated => "✅ Token created successfully!\n"
  | .txSignature sg => "Transaction signature: " ++ bytesStr sg ++ "\n"
  | .mintAddressLine a => "Mint address: " ++ bytesStr a ++ "\n"
  | .viewExplorer a =>
      "View on Solana Explorer: https://explorer.solana.com/address/" ++
        bytesStr a ++ "?cluster=devnet\n"
  | .mintingTokens => "\nMinting tokens...\n"
  | .minted => "✅ Tokens minted successfully!\n"
  | .mintTxSignature sg => "Mint transaction signature: " ++ bytesStr sg ++ "\n"
  | .viewMintTx sg =>
      "View mint transaction: https://explorer.solana.com/tx/" ++
        bytesStr sg ++ "?cluster=devnet\n"
  | .errorMinting s => "❌ Error minting tokens: " ++ toString s ++ "\n"

/-- One observable step of the example driver: an FFI call, an FFI return, or a
printed line. -/
inductive Event where
  | callCreate (uri name : List Nat) (decimals : Nat) (sigLen addrLen : Nat)
  | retCreate (status : Int)
  | callMint (addr : List Nat) (owner : Option (List Nat)) (amount : Nat) (sigLen : Nat)
  | retMint (status : Int)
  | out (o : Output)
deriving DecidableEq

/-- Is the event an FFI call or return (as opposed to a print)? -/
def Event.isFfi : Event → Bool
  | .callCreate _ _ _ _ _ => true
  | .retCreate _ => true
  | .callMint _ _ _ _ => true
  | .retMint _ => true
  | .out _ => false

/-- Is the event a call of `mint_token_ffi`? -/
def Event.isMintCall : Event → Bool
  | .callMint _ _ _ _ => true
  | _ => false

/-- The foreign library as the driver sees it: one function per FFI entry
point, mapping the inputs and the output buffers' prior memory to a status and
the buffers' posterior memory. -/
structure Ffi where
  create : List Nat → List Nat → Nat → List Nat → List Nat → Nat → Nat →
    Int × List Nat × List Nat
  mint : List Nat → Option (List Nat) → Nat → List Nat → Nat → Int × List Nat

/-- The `Ffi` given by the spec-modelled `create_token` and `mint_token_ffi`
over a pair of external engines and a default payer. -/
def ffiOfEngines (ce : CreateEngine) (me : MintEngine) (payer : List Nat) : Ffi where
  create := fun uri nm d so mo sl ml => create_token ce uri nm d so mo sl ml
  mint := fun ma ow amt so sl => mint_token_ffi me payer ma ow amt so sl

/-- The driver's `create_token` call (c_example.c lines 16-24): the scenario
URI and name, decimals 6, both buffers with their `sizeof` as capacity. -/
def createRes (ffi : Ffi) (sigInit addrInit : List Nat) : Int × List Nat × List Nat :=
  ffi.create c_uri c_name 6 sigInit addrInit signature_size mint_address_size

/-- The driver's `mint_token_ffi` call (c_example.c lines 40-46): the mint
address read back from the create call's buffer, `NULL` owner, amount
`1000000`, `sizeof(mint_signature)` as capacity. -/
def mintRes (ffi : Ffi) (sigInit addrInit mintSigInit : List Nat) : Int × List Nat :=
  ffi.mint (readCString (createRes ffi sigInit addrInit).2.2) none 1000000
    mintSigInit mint_signature_size

/-- The embedding of `main` of `c_example.c`: given the foreign library and
the (uninitialized) contents of the three stack buffers, it yields the process
exit status and the trace of calls, returns and printed lines, in program
order. -/
def c_example (ffi : Ffi) (sigInit addrInit mintSigInit : List Nat) :
    Int × List Event :=
  let r := createRes ffi sigInit addrInit
  let s := r.1
  if s ≠ 0 then
    (1, [.out (.creatingToken c_name),
         .callCreate c_uri c_name 6 signature_size mint_address_size,
         .retCreate s,
         .out (.errorCreating s)])
  else
    let sig := readCString r.2.1
    let addr := readCString r.2.2
    let m := mintRes ffi sigInit addrInit mintSigInit
    let t := m.1
    let msig := readCString m.2
    let head : List Event :=
      [.out (.creatingToken c_name),
       .callCreate c_uri c_name 6 signature_size mint_address_size,
       .retCreate s,
       .out .tokenCreated,
       .out (.txSignature sig),
       .out (.mintAddressLine addr),
       .out (.viewExplorer addr),
       .out .mintingTokens,
       .callMint addr none 1000000 mint_signature_size,
       .retMint t]
    if t = 0 then
      (0, head ++ [.out .minted, .out (.mintTxSignature msig), .out (.viewMintTx msig)])
    else
      (0, head ++ [.out (.errorMinting t)])

/-- A concrete create engine used to exercise the model on closed inputs. -/
def demoCreateEngine : CreateEngine :=
  fun _ _ _ => some ⟨strBytes "DEMOSIG", strBytes "DEMOMINT"⟩

/-- A concrete mint engine used to exercise the model on closed inputs. -/
def demoMintEngine : MintEngine := fun _ _ _ => some (strBytes "DEMOMINTSIG")

/-- A concrete foreign library used to exercise the driver on closed inputs. -/
def demoFfi : Ffi := ffiOfEngines demoCreateEngine demoMintEngine (strBytes "PAYER")

/-- A concrete foreign library whose creation always fails with status 7. -/
def failCreateFfi : Ffi where
  create := fun _ _ _ so mo _ _ => (7, so, mo)
  mint := fun _ _ _ so _ => (0, so)

/-- A concrete foreign library whose creation succeeds and whose mint fails
with status 9. -/
def failMintFfi : Ffi where
  create := fun _ _ _ _ _ _ _ =>
    (0, strBytes "SIG" ++ [0], strBytes "ADDR" ++ [0])
  mint := fun _ _ _ so _ => (9, so)

/-! ## Claims about the FFI operations (spec-modelled) -/

/-- Claim C2: for every mint address and amount, calling `mint_token_ffi` with
an absent (`none`) `token_owner` returns the same status and produces the same
observable effect as calling it with the default payer's own address supplied
explicitly. -/
theorem mint_none_owner_eq_payer (me : MintEngine) (payer ma : List Nat)
    (amt : Nat) (so : List Nat) (sl : Nat) :
    mint_token_ffi me payer ma none amt so sl =
      mint_token_ffi me payer ma (some payer) amt so sl := rfl

/-- Claim C3: whenever `create_token` returns status `0`, both output buffers
hold a null terminator within their declared capacities; and neither
`create_token` nor `mint_token_ffi` ever writes past the declared capacity of
any output buffer (the memory from the capacity onward is unchanged). -/
theorem create_token_success_null_terminated (ce : CreateEngine)
    (uri nm : List Nat) (d : Nat) (so mo : List Nat) (sl ml : Nat) :
    ((create_token ce uri nm d so mo sl ml).1 = 0 →
      nullWithin (create_token ce uri nm d so mo sl ml).2.1 sl ∧
      nullWithin (create_token ce uri nm d so mo sl ml).2.2 ml) ∧
    ((create_token ce uri nm d so mo sl ml).2.1).drop sl = so.drop sl ∧
    ((create_token ce uri nm d so mo sl ml).2.2).drop ml = mo.drop ml ∧
    ∀ (me : MintEngine) (payer ma : List Nat) (ow : Option (List Nat))
      (amt : Nat) (si : List Nat) (l : Nat),
      ((mint_token_ffi me payer ma ow amt si l).2).drop l = si.drop l := by
  have hmint : ∀ (me : MintEngine) (payer ma : List Nat) (ow : Option (List Nat))
      (amt : Nat) (si : List Nat) (l : Nat),
      ((mint_token_ffi me payer ma ow amt si l).2).drop l = si.drop l := by
    intro me payer ma ow amt si l
    unfold mint_token_ffi
    cases hE : me ma (ow.getD payer) amt with
    | none => simp [hE]
    | some sig =>
      cases hw : writeCString sig l si with
      | none => simp [hE, hw]
      | some sm => simp [hE, hw, writeCString_drop hw]
  cases hE : ce uri nm d with
  | none => simp [create_token, hE, hmint]
  | some r =>
    cases hw1 : writeCString r.signature sl so with
    | none => simp [create_token, hE, hw1, hmint]
    | some sm =>
      cases hw2 : writeCString r.mintAddress ml mo with
      | none => simp [create_token, hE, hw1, hw2, hmint]
      | some am =>
        simp [create_token, hE, hw1, hw2, hmint, writeCString_drop hw1,
          writeCString_drop hw2, writeCString_nullWithin hw1,
          writeCString_nullWithin hw2]

/-- Witness for C3: on a concrete successful creation the theorem yields null
terminators inside both capacities. -/
theorem create_token_success_null_terminated_witness :
    nullWithin (create_token demoCreateEngine c_uri c_name 6
      (List.replicate 100 65) (List.replicate 50 65) 100 50).2.1 100 ∧
    nullWithin (create_token demoCreateEngine c_uri c_name 6
      (List.replicate 100 65) (List.replicate 50 65) 100 50).2.2 50 :=
  (create_token_success_null_terminated demoCreateEngine c_uri c_name 6
    (List.replicate 100 65) (List.replicate 50 65) 100 50).1 (by decide)

/-- Claim C4: whenever the result handed back by the engine does not fit an
output buffer's declared capacity (terminator included), `create_token` and
`mint_token_ffi` return a nonzero status and write nothing beyond the declared
capacity. -/
theorem undersized_buffer_fails :
    (∀ (ce : CreateEngine) (uri nm : List Nat) (d : Nat) (so mo : List Nat)
      (sl ml : Nat) (r : TokenResult), ce uri nm d = some r →
      (sl < r.signature.length + 1 ∨ ml < r.mintAddress.length + 1) →
      (create_token ce uri nm d so mo sl ml).1 ≠ 0 ∧
      ((create_token ce uri nm d so mo sl ml).2.1).drop sl = so.drop sl ∧
      ((create_token ce uri nm d so mo sl ml).2.2).drop ml = mo.drop ml) ∧
    (∀ (me : MintEngine) (payer ma : List Nat) (ow : Option (List Nat))
      (amt : Nat) (si : List Nat) (l : Nat) (sig : List Nat),
      me ma (ow.getD payer) amt = some sig → l < sig.length + 1 →
      (mint_token_ffi me payer ma ow amt si l).1 ≠ 0 ∧
      ((mint_token_ffi me payer ma ow amt si l).2).drop l = si.drop l) := by
  constructor
  · intro ce uri nm d so mo sl ml r hE hlt
    cases hw1 : writeCString r.signature sl so with
    | none => simp [create_token, hE, hw1]
    | some sm =>
      cases hw2 : writeCString r.mintAddress ml mo with
      | none => simp [create_token, hE, hw1, hw2]
      | some am =>
        exfalso
        have h1 := writeCString_fits hw1
        have h2 := writeCString_fits hw2
        omega
  · intro me payer ma ow amt si l sig hE hlt
    unfold mint_token_ffi
    cases hw : writeCString sig l si with
    | none => simp [hE, hw]
    | some sm =>
      exfalso
      have h1 := writeCString_fits hw
      omega

/-- Witness for C4: a 3-byte signature capacity is too small for the demo
engine's 7-byte signature, and a 2-byte capacity is too small for the demo
mint signature; both calls report a nonzero status. -/
theorem undersized_buffer_fails_witness :
    (create_token demoCreateEngine c_uri c_name 6 [] [] 3 50).1 ≠ 0 ∧
    (mint_token_ffi demoMintEngine (strBytes "PAYER") (strBytes "ADDR")
      none 5 [] 2).1 ≠ 0 :=
  ⟨(undersized_buffer_fails.1 demoCreateEngine c_uri c_name 6 [] [] 3 50
      ⟨strBytes "DEMOSIG", strBytes "DEMOMINT"⟩ rfl (by decide)).1,
   (undersized_buffer_fails.2 demoMintEngine (strBytes "PAYER") (strBytes "ADDR")
      none 5 [] 2 (strBytes "DEMOMINTSIG") rfl (by decide)).1⟩

/-! ## Trace shapes of the example driver -/

lemma c_example_create_fail (ffi : Ffi) (i1 i2 i3 : List Nat)
    (hs : (createRes ffi i1 i2).1 ≠ 0) :
    c_example ffi i1 i2 i3 =
      (1, [.out (.creatingToken c_name),
           .callCreate c_uri c_name 6 signature_size mint_address_size,
           .retCreate (createRes ffi i1 i2).1,
           .out (.errorCreating (createRes ffi i1 i2).1)]) := by
  simp [c_example, hs]

lemma c_example_both_ok (ffi : Ffi) (i1 i2 i3 : List Nat)
    (hs : (createRes ffi i1 i2).1 = 0) (ht : (mintRes ffi i1 i2 i3).1 = 0) :
    c_example ffi i1 i2 i3 =
      (0, [.out (.creatingToken c_name),
           .callCreate c_uri c_name 6 signature_size mint_address_size,
           .retCreate 0,
           .out .tokenCreated,
           .out (.txSignature (readCString (createRes ffi i1 i2).2.1)),
           .out (.mintAddressLine (readCString (createRes ffi i1 i2).2.2)),
           .out (.viewExplorer (readCString (createRes ffi i1 i2).2.2)),
           .out .mintingTokens,
           .callMint (readCString (createRes ffi i1 i2).2.2) none 1000000
             mint_signature_size,
           .retMint 0,
           .out .minted,
           .out (.mintTxSignature (readCString (mintRes ffi i1 i2 i3).2)),
           .out (.viewMintTx (readCString (mintRes ffi i1 i2 i3).2))]) := by
  simp [c_example, hs, ht]

lemma c_example_mint_fail (ffi : Ffi) (i1 i2 i3 : List Nat)
    (hs : (createRes ffi i1 i2).1 = 0) (ht : (mintRes ffi i1 i2 i3).1 ≠ 0) :
    c_example ffi i1 i2 i3 =
      (0, [.out (.creatingToken c_name),
           .callCreate c_uri c_name 6 signature_size mint_address_size,
           .retCreate 0,
           .out .tokenCreated,
           .out (.txSignature (readCString (createRes ffi i1 i2).2.1)),
           .out (.mintAddressLine (readCString (createRes ffi i1 i2).2.2)),
           .out (.viewExplorer (readCString (createRes ffi i1 i2).2.2)),
           .out .mintingTokens,
           .callMint (readCString (createRes ffi i1 i2).2.2) none 1000000
             mint_signature_size,
           .retMint (mintRes ffi i1 i2 i3).1,
           .out (.errorMinting (mintRes ffi i1 i2 i3).1)]) := by
  simp [c_example, hs, ht]

/-! ## Claims about the example driver -/

/-- Claim C1 (counterexample): the driver's name argument is
`"Test Token from C"`, not the scenario-1 literal `"Test Token"`: no create
call with name `"Test Token"` occurs in a concrete run. -/
theorem example_create_name_not_scenario1 :
    strBytes "Test Token from C" ≠ strBytes "Test Token" ∧
    Event.callCreate c_uri (strBytes "Test Token") 6 signature_size
      mint_address_size ∉ (c_example demoFfi [] [] []).2 := by decide

/-- Claim C1 (amended): in every run, the driver's token-creation call (the
second trace event, right after the opening print) uses exactly URI
`"https://example.com/token-metadata.json"`, name `"Test Token from C"`,
decimals `6`, and capacity arguments equal to the allocated buffer sizes,
namely 100 bytes for the signature and 50 for the mint address. -/
theorem example_create_call_params (ffi : Ffi) (i1 i2 i3 : List Nat) :
    (c_example ffi i1 i2 i3).2[1]? =
      some (.callCreate (strBytes "https://example.com/token-metadata.json")
        (strBytes "Test Token from C") 6 signature_size mint_address_size) ∧
    signature_size = 100 ∧ mint_address_size = 50 := by
  refine ⟨?_, rfl, rfl⟩
  by_cases hs : (createRes ffi i1 i2).1 = 0
  · by_cases ht : (mintRes ffi i1 i2 i3).1 = 0
    · rw [c_example_both_ok ffi i1 i2 i3 hs ht]; rfl
    · rw [c_example_mint_fail ffi i1 i2 i3 hs ht]; rfl
  · rw [c_example_create_fail ffi i1 i2 i3 hs]; rfl

/-- Claim C5: both operations surface a binary outcome to the driver, which
classifies every result solely by the zero-versus-nonzero test: each branch
of the driver (created/creation-error/minted/minting-error, and the exit
status) is taken exactly according to whether the corresponding status
is zero. -/
theorem driver_binary_classification (ffi : Ffi) (i1 i2 i3 : List Nat) :
    (Event.out .tokenCreated ∈ (c_example ffi i1 i2 i3).2 ↔
      (createRes ffi i1 i2).1 = 0) ∧
    (Event.out (.errorCreating (createRes ffi i1 i2).1) ∈ (c_example ffi i1 i2 i3).2 ↔
      (createRes ffi i1 i2).1 ≠ 0) ∧
    (Event.out .minted ∈ (c_example ffi i1 i2 i3).2 ↔
      ((createRes ffi i1 i2).1 = 0 ∧ (mintRes ffi i1 i2 i3).1 = 0)) ∧
    (Event.out (.errorMinting (mintRes ffi i1 i2 i3).1) ∈ (c_example ffi i1 i2 i3).2 ↔
      ((createRes ffi i1 i2).1 = 0 ∧ (mintRes ffi i1 i2 i3).1 ≠ 0)) ∧
    (c_example ffi i1 i2 i3).1 = (if (createRes ffi i1 i2).1 = 0 then 0 else 1) := by
  by_cases hs : (createRes ffi i1 i2).1 = 0
  · by_cases ht : (mintRes ffi i1 i2 i3).1 = 0
    · rw [c_example_both_ok ffi i1 i2 i3 hs ht]
      simp [hs, ht]
    · rw [c_example_mint_fail ffi i1 i2 i3 hs ht]
      simp [hs, ht]
  · rw [c_example_create_fail ffi i1 i2 i3 hs]
    simp [hs]

/-- Claim C6: whenever `create_token` reports a nonzero status, the driver
prints the creation-error line carrying that status (whose rendered text
contains the status), exits with status 1 at once, and never calls
`mint_token_ffi` in that run. -/
theorem create_failure_stops_driver (ffi : Ffi) (i1 i2 i3 : List Nat)
    (hs : (createRes ffi i1 i2).1 ≠ 0) :
    (c_example ffi i1 i2 i3).1 = 1 ∧
    Event.out (.errorCreating (createRes ffi i1 i2).1) ∈ (c_example ffi i1 i2 i3).2 ∧
    (∃ pre post, renderOutput (.errorCreating (createRes ffi i1 i2).1) =
      pre ++ toString (createRes ffi i1 i2).1 ++ post) ∧
    (c_example ffi i1 i2 i3).2.filter Event.isMintCall = [] := by
  rw [c_example_create_fail ffi i1 i2 i3 hs]
  refine ⟨rfl, by simp, ⟨"❌ Error creating token: ", "\n", rfl⟩, ?_⟩
  simp [List.filter, Event.isMintCall]

/-- Witness for C6: with a foreign library whose creation fails with status 7,
the driver makes no mint call and exits with 1. -/
theorem create_failure_stops_driver_witness :
    (createRes failCreateFfi [] []).1 ≠ 0 ∧
    (c_example failCreateFfi [] [] []).1 = 1 ∧
    (c_example failCreateFfi [] [] []).2.filter Event.isMintCall = [] :=
  ⟨by decide,
   (create_failure_stops_driver failCreateFfi [] [] [] (by decide)).1,
   (create_failure_stops_driver failCreateFfi [] [] [] (by decide)).2.2.2⟩

/-- Claim C7: after a successful creation, the driver's one and only mint call
passes exactly the mint-address string the create call wrote into its buffer,
a `none` (null) owner, and amount `1000000 = 10 ^ 6`, one whole token at the
6 decimals the create call used. -/
theorem mint_call_uses_created_address (ffi : Ffi) (i1 i2 i3 : List Nat)
    (hs : (createRes ffi i1 i2).1 = 0) :
    (c_example ffi i1 i2 i3).2.filter Event.isMintCall =
      [.callMint (readCString (createRes ffi i1 i2).2.2) none 1000000
        mint_signature_size] ∧
    Event.callCreate c_uri c_name 6 signature_size mint_address_size ∈
      (c_example ffi i1 i2 i3).2 ∧
    (1000000 : Nat) = 10 ^ 6 := by
  by_cases ht : (mintRes ffi i1 i2 i3).1 = 0
  · rw [c_example_both_ok ffi i1 i2 i3 hs ht]
    refine ⟨?_, by simp, by norm_num⟩
    simp [List.filter, Event.isMintCall]
  · rw [c_example_mint_fail ffi i1 i2 i3 hs ht]
    refine ⟨?_, by simp, by norm_num⟩
    simp [List.filter, Event.isMintCall]

/-- Witness for C7: on a concrete successful run the unique mint call carries
the created mint address, a null owner and amount 1000000. -/
theorem mint_call_uses_created_address_witness :
    (createRes demoFfi [] []).1 = 0 ∧
    (c_example demoFfi [] [] []).2.filter Event.isMintCall =
      [.callMint (readCString (createRes demoFfi [] []).2.2) none 1000000
        mint_signature_size] :=
  ⟨by decide, (mint_call_uses_created_address demoFfi [] [] [] (by decide)).1⟩

/-- Claim C8: in every run the FFI events are strictly sequential:
`create_token` is called first and exactly once, each call is immediately
followed by its return, and `mint_token_ffi` is called at most once and only
after `create_token` has returned status 0. -/
theorem driver_calls_sequential (ffi : Ffi) (i1 i2 i3 : List Nat) :
    ((createRes ffi i1 i2).1 ≠ 0 ∧
      (c_example ffi i1 i2 i3).2.filter Event.isFfi =
        [.callCreate c_uri c_name 6 signature_size mint_address_size,
         .retCreate (createRes ffi i1 i2).1]) ∨
    ((createRes ffi i1 i2).1 = 0 ∧
      (c_example ffi i1 i2 i3).2.filter Event.isFfi =
        [.callCreate c_uri c_name 6 signature_size mint_address_size,
         .retCreate 0,
         .callMint (readCString (createRes ffi i1 i2).2.2) none 1000000
           mint_signature_size,
         .retMint (mintRes ffi i1 i2 i3).1]) := by
  by_cases hs : (createRes ffi i1 i2).1 = 0
  · right
    refine ⟨hs, ?_⟩
    by_cases ht : (mintRes ffi i1 i2 i3).1 = 0
    · rw [c_example_both_ok ffi i1 i2 i3 hs ht, ht]
      simp [List.filter, Event.isFfi]
    · rw [c_example_mint_fail ffi i1 i2 i3 hs ht]
      simp [List.filter, Event.isFfi]
  · left
    refine ⟨hs, ?_⟩
    rw [c_example_create_fail ffi i1 i2 i3 hs]
    simp [List.filter, Event.isFfi]

/-- Claim C9: when `mint_token_ffi` returns a nonzero status the driver prints
the minting-error line but still exits with status 0, while a creation failure
exits with status 1: the exit code reflects creation failures only. -/
theorem mint_failure_exits_zero (ffi : Ffi) (i1 i2 i3 : List Nat) :
    ((createRes ffi i1 i2).1 = 0 → (mintRes ffi i1 i2 i3).1 ≠ 0 →
      Event.out (.errorMinting (mintRes ffi i1 i2 i3).1) ∈ (c_example ffi i1 i2 i3).2 ∧
      (c_example ffi i1 i2 i3).1 = 0) ∧
    ((createRes ffi i1 i2).1 ≠ 0 → (c_example ffi i1 i2 i3).1 = 1) := by
  constructor
  · intro hs ht
    rw [c_example_mint_fail ffi i1 i2 i3 hs ht]
    simp
  · intro hs
    rw [c_example_create_fail ffi i1 i2 i3 hs]

/-- Witness for C9: with a foreign library whose mint fails with status 9 the
driver still exits 0 and prints the minting-error line. -/
theorem mint_failure_exits_zero_witness :
    (createRes failMintFfi [] []).1 = 0 ∧ (mintRes failMintFfi [] [] []).1 ≠ 0 ∧
    (c_example failMintFfi [] [] []).1 = 0 :=
  ⟨by decide, by decide,
   ((mint_failure_exits_zero failMintFfi [] [] []).1 (by decide) (by decide)).2⟩

/-! ## Reads of output buffers never depend on their uninitialized contents -/

lemma readCString_append_zero (s rest rest' : List Nat) :
    readCString (s ++ 0 :: rest) = readCString (s ++ 0 :: rest') := by
  induction s with
  | nil => simp [readCString]
  | cons b bs ih => by_cases hb : b = 0 <;> simp [readCString, hb, ih]

lemma create_token_status_eq (ce : CreateEngine) (uri nm : List Nat) (d : Nat)
    (so mo so' mo' : List Nat) (sl ml : Nat) :
    (create_token ce uri nm d so mo sl ml).1 =
      (create_token ce uri nm d so' mo' sl ml).1 := by
  cases hE : ce uri nm d with
  | none => simp [create_token, hE]
  | some r =>
    by_cases h1 : r.signature.length + 1 ≤ sl <;>
      by_cases h2 : r.mintAddress.length + 1 ≤ ml <;>
      simp [create_token, hE, writeCString, h1, h2]

lemma create_token_read_eq (ce : CreateEngine) (uri nm : List Nat) (d : Nat)
    (so mo so' mo' : List Nat) (sl ml : Nat)
    (h0 : (create_token ce uri nm d so mo sl ml).1 = 0) :
    readCString (create_token ce uri nm d so mo sl ml).2.1 =
      readCString (create_token ce uri nm d so' mo' sl ml).2.1 ∧
    readCString (create_token ce uri nm d so mo sl ml).2.2 =
      readCString (create_token ce uri nm d so' mo' sl ml).2.2 := by
  cases hE : ce uri nm d with
  | none => simp [create_token, hE] at h0
  | some r =>
    by_cases h1 : r.signature.length + 1 ≤ sl
    · by_cases h2 : r.mintAddress.length + 1 ≤ ml
      · constructor <;>
        · simp [create_token, hE, writeCString, h1, h2]
          exact readCString_append_zero _ _ _
      · simp [create_token, hE, writeCString, h1, h2] at h0
    · simp [create_token, hE, writeCString, h1] at h0

lemma mint_status_eq (me : MintEngine) (payer ma : List Nat)
    (ow : Option (List Nat)) (amt : Nat) (si si' : List Nat) (l : Nat) :
    (mint_token_ffi me payer ma ow amt si l).1 =
      (mint_token_ffi me payer ma ow amt si' l).1 := by
  unfold mint_token_ffi
  cases hE : me ma (ow.getD payer) amt with
  | none => simp [hE]
  | some sig => by_cases h1 : sig.length + 1 ≤ l <;> simp [hE, writeCString, h1]

lemma mint_read_eq (me : MintEngine) (payer ma : List Nat)
    (ow : Option (List Nat)) (amt : Nat) (si si' : List Nat) (l : Nat)
    (h0 : (mint_token_ffi me payer ma ow amt si l).1 = 0) :
    readCString (mint_token_ffi me payer ma ow amt si l).2 =
      readCString (mint_token_ffi me payer ma ow amt si' l).2 := by
  unfold mint_token_ffi at h0 ⊢
  cases hE : me ma (ow.getD payer) amt with
  | none => simp [hE] at h0
  | some sig =>
    by_cases h1 : sig.length + 1 ≤ l
    · simp [hE, writeCString, h1]
      exact readCString_append_zero _ _ _
    · simp [hE, writeCString, h1] at h0

/-- Claim C10: the driver reads an output buffer only after the call that
fills it returned status 0. First, with the spec-modelled library the whole
run is independent of the uninitialized contents of the three stack buffers;
second, every printed line carrying buffer data occurs only in runs where the
filling call returned 0, and carries exactly the string that call wrote. -/
theorem buffer_reads_initialized :
    (∀ (ce : CreateEngine) (me : MintEngine) (payer i1 i2 i3 j1 j2 j3 : List Nat),
      c_example (ffiOfEngines ce me payer) i1 i2 i3 =
        c_example (ffiOfEngines ce me payer) j1 j2 j3) ∧
    (∀ (ffi : Ffi) (i1 i2 i3 v : List Nat),
      (Event.out (.txSignature v) ∈ (c_example ffi i1 i2 i3).2 →
        (createRes ffi i1 i2).1 = 0 ∧ v = readCString (createRes ffi i1 i2).2.1) ∧
      ((Event.out (.mintAddressLine v) ∈ (c_example ffi i1 i2 i3).2 ∨
        Event.out (.viewExplorer v) ∈ (c_example ffi i1 i2 i3).2) →
        (createRes ffi i1 i2).1 = 0 ∧ v = readCString (createRes ffi i1 i2).2.2) ∧
      ((Event.out (.mintTxSignature v) ∈ (c_example ffi i1 i2 i3).2 ∨
        Event.out (.viewMintTx v) ∈ (c_example ffi i1 i2 i3).2) →
        (createRes ffi i1 i2).1 = 0 ∧ (mintRes ffi i1 i2 i3).1 = 0 ∧
        v = readCString (mintRes ffi i1 i2 i3).2)) := by
  constructor
  · intro ce me payer i1 i2 i3 j1 j2 j3
    have hcs : (createRes (ffiOfEngines ce me payer) i1 i2).1 =
        (createRes (ffiOfEngines ce me payer) j1 j2).1 :=
      create_token_status_eq ce c_uri c_name 6 i1 i2 j1 j2
        signature_size mint_address_size
    by_cases hs : (createRes (ffiOfEngines ce me payer) i1 i2).1 = 0
    · have hs' : (createRes (ffiOfEngines ce me payer) j1 j2).1 = 0 := by
        rw [← hcs]; exact hs
      have hread := create_token_read_eq ce c_uri c_name 6 i1 i2 j1 j2
        signature_size mint_address_size hs
      have hsig : readCString (createRes (ffiOfEngines ce me payer) i1 i2).2.1 =
          readCString (createRes (ffiOfEngines ce me payer) j1 j2).2.1 := hread.1
      have haddr : readCString (createRes (ffiOfEngines ce me payer) i1 i2).2.2 =
          readCString (createRes (ffiOfEngines ce me payer) j1 j2).2.2 := hread.2
      have hms : (mintRes (ffiOfEngines ce me payer) i1 i2 i3).1 =
          (mintRes (ffiOfEngines ce me payer) j1 j2 j3).1 := by
        unfold mintRes
        rw [haddr]
        exact mint_status_eq me payer _ none 1000000 i3 j3 mint_signature_size
      by_cases ht : (mintRes (ffiOfEngines ce me payer) i1 i2 i3).1 = 0
      · have ht' : (mintRes (ffiOfEngines ce me payer) j1 j2 j3).1 = 0 := by
          rw [← hms]; exact ht
        have hmr : readCString (mintRes (ffiOfEngines ce me payer) i1 i2 i3).2 =
            readCString (mintRes (ffiOfEngines ce me payer) j1 j2 j3).2 := by
          have ht2 := ht
          unfold mintRes at ht2 ⊢
          rw [haddr] at ht2 ⊢
          exact mint_read_eq me payer _ none 1000000 i3 j3 mint_signature_size ht2
        rw [c_example_both_ok _ i1 i2 i3 hs ht, c_example_both_ok _ j1 j2 j3 hs' ht',
          hsig, haddr, hmr]
      · have ht' : (mintRes (ffiOfEngines ce me payer) j1 j2 j3).1 ≠ 0 := by
          rw [← hms]; exact ht
        rw [c_example_mint_fail _ i1 i2 i3 hs ht, c_example_mint_fail _ j1 j2 j3 hs' ht',
          hsig, haddr, hms]
    · have hs' : (createRes (ffiOfEngines ce me payer) j1 j2).1 ≠ 0 := by
        rw [← hcs]; exact hs
      rw [c_example_create_fail _ i1 i2 i3 hs, c_example_create_fail _ j1 j2 j3 hs', hcs]
  · intro ffi i1 i2 i3 v
    by_cases hs : (createRes ffi i1 i2).1 = 0
    · by_cases ht : (mintRes ffi i1 i2 i3).1 = 0
      · rw [c_example_both_ok ffi i1 i2 i3 hs ht]
        refine ⟨?_, ?_, ?_⟩ <;> (intro hmem; simp at hmem; simp [hs, ht, hmem])
      · rw [c_example_mint_fail ffi i1 i2 i3 hs ht]
        refine ⟨?_, ?_, ?_⟩ <;> (intro hmem; simp at hmem <;> simp [hs, ht, hmem])
    · rw [c_example_create_fail ffi i1 i2 i3 hs]
      refine ⟨?_, ?_, ?_⟩ <;> · intro hmem; simp at hmem

/-- Witness for C10: on a concrete successful run the printed transaction
signature is the string the create call wrote into the signature buffer. -/
theorem buffer_reads_initialized_witness :
    Event.out (.txSignature (strBytes "DEMOSIG")) ∈ (c_example demoFfi [] [] []).2 ∧
    ((createRes demoFfi [] []).1 = 0 ∧
      strBytes "DEMOSIG" = readCString (createRes demoFfi [] []).2.1) :=
  ⟨by decide,
   (buffer_reads_initialized.2 demoFfi [] [] [] (strBytes "DEMOSIG")).1 (by decide)⟩

end SssShared
